import Mathlib

/-!
Shallow embedding of the client-side orchestration logic of
`src/frontend/src/App.vue` (InferenceDeck front end).

Correspondence with the source:

* `AppState` holds the reactive refs declared in the state section of the
  component: `backendResponse`, `isLoading`, `errorMessage`,
  `selectedAlgorithm`, `selectedFile`, `uploadStatus`, `uploadedFilename`,
  `dataFormat`, `kValue`, `maxIter`, `randomSeed`.  The DOM chart container
  (`chartRef`) is passed to `renderChart` as a boolean "surface present" flag.
* Asynchronous handlers are split at their `await` point: the synchronous
  prefix is a function `AppState → AppState × List Effect` (the effect list
  records alerts and outgoing network requests), and the continuation that
  runs when the response arrives is a separate `...Resolve` function taking
  the response as an explicit value.
* JavaScript truthiness on the string refs is `≠ ""`; truthiness on the
  optional response fields is `Option.isSome` (an empty array is truthy).
* Floating point values that the client merely echoes and never computes
  with (metrics, coordinates) are modelled as `Int`; the constant marker
  opacity `0.8` is modelled as the rational `4/5`.  No arithmetic is
  performed on any of them anywhere in the embedded code.
-/

/-- One element of the backend's `plot_data` list: `{x, y, name, cluster}`. -/
structure ClusterPoint where
  x : Int
  y : Int
  name : String
  cluster : Int
deriving DecidableEq, Repr

/-- One echarts series object as pushed by `renderChart` into `seriesData`. -/
structure Series where
  name : String
  type : String
  symbolSize : Nat
  data : List (Int × Int × String)
  opacity : Rat
deriving DecidableEq, Repr

/-- The echarts option object passed to `myChart.setOption` (the parts the
component constructs: series, tooltip layout aside, legend, axes). -/
structure ChartOption where
  series : List Series
  legendBottom : String
  legendData : List String
  xAxisName : String
  xSplitLine : Bool
  yAxisName : String
  ySplitLine : Bool
deriving DecidableEq, Repr

/-- JavaScript string comparison (UTF-16 code unit order) on the character
lists; the characters produced by number-to-string conversion are ASCII, where
code unit order and code point order agree. -/
def jsStringLeChars : List Char → List Char → Bool
  | [], _ => true
  | _ :: _, [] => false
  | a :: as, b :: bs =>
      if a < b then true
      else if b < a then false
      else jsStringLeChars as bs

/-- `a <= b` in the JavaScript default sort comparison, i.e. `String(a)`
does not come after `String(b)`. -/
def jsStringLe (a b : String) : Bool :=
  jsStringLeChars a.data b.data

/-- `String(n)` for an integral JavaScript number: decimal digits with a
leading minus sign for negatives, matching Lean's `toString` on `Int`. -/
def jsNumberToString (n : Int) : String := toString n

/-- Worker for `setSpread`: keeps the elements not already seen, first
occurrence first, exactly as iterating a JavaScript `Set` does. -/
def setSpreadAux (seen : List Int) : List Int → List Int
  | [] => []
  | a :: rest =>
      if seen.contains a then setSpreadAux seen rest
      else a :: setSpreadAux (a :: seen) rest

/-- `[...new Set(l)]`: removes duplicates keeping the first occurrence of
each element, in insertion order. -/
def setSpread (l : List Int) : List Int := setSpreadAux [] l

/-- `[...new Set(plot_data.map(item=>item.cluster))].sort()` from
`renderChart`.  The JavaScript default sort comparator converts both
elements to strings and compares them by code units; `.sort()` is a stable
sort with respect to that comparator (modelled by insertion sort, and the
input is duplicate-free after the set spread, so any sort implementing the
same comparator returns this list). -/
def clustersOf (plot_data : List ClusterPoint) : List Int :=
  List.insertionSort
    (fun a b => jsStringLe (jsNumberToString a) (jsNumberToString b) = true)
    (setSpread (plot_data.map (fun item => item.cluster)))

/-- The series object pushed for one cluster id: name `Cluster {id}`,
scatter type, symbol size 10, the matching points of `plot_data` in their
original order mapped to `[x, y, name]` triples, marker opacity 0.8. -/
def mkSeries (plot_data : List ClusterPoint) (clusterId : Int) : Series :=
  { name := "Cluster " ++ toString clusterId
    type := "scatter"
    symbolSize := 10
    data := (plot_data.filter (fun item => item.cluster == clusterId)).map
      (fun p => (p.x, p.y, p.name))
    opacity := (4 : Rat) / 5 }

/-- The `clusters.forEach(... seriesData.push(...))` loop: one series per
cluster id, in the order of `clustersOf`. -/
def seriesData (plot_data : List ClusterPoint) : List Series :=
  (clustersOf plot_data).map (mkSeries plot_data)

/-- `Number.prototype.toFixed(2)` on an integral value. -/
def toFixed2 (n : Int) : String := toString n ++ ".00"

/-- The tooltip formatter: `params.data` is the `[x, y, name]` triple of the
hovered point and `params.seriesName` the name of its series. -/
def tooltipFormatter (d : Int × Int × String) (seriesName : String) : String :=
  "<b>" ++ d.2.2 ++ "</b><br/>Cluster: " ++ seriesName ++ "<br/>(x: " ++
    toFixed2 d.1 ++ ", y: " ++ toFixed2 d.2.1 ++ ")"

/-- `renderChart(plot_data)`.  `chartRef` says whether the chart container
element exists (`chartRef.value` non-null); `plot_data` is `none` when the
argument is absent/null (`!plot_data` is also true for `undefined`/`null`,
but an empty array is truthy).  A `none` result means the guard returned
early: no `echarts.init` and no `setOption` call happened; a `some` result
is the option object handed to `setOption` on the initialized chart. -/
def renderChart (chartRef : Bool) (plot_data : Option (List ClusterPoint)) :
    Option ChartOption :=
  if !chartRef then none
  else
    match plot_data with
    | none => none
    | some pd =>
        let clusters := clustersOf pd
        some
          { series := seriesData pd
            legendBottom := "5%"
            legendData := clusters.map (fun c => "Cluster " ++ toString c)
            xAxisName := "PC 1"
            xSplitLine := false
            yAxisName := "PC 2"
            ySplitLine := false }

/-- The `exampleText` computed property: one fixed literal per data-format
token, empty string on the default branch. -/
def exampleText (dataFormat : String) : String :=
  match dataFormat with
  | "row_feat_col_sample" => ",特征1,特征2\n样本1,10,20\n样本2,30,40"
  | "row_sample_col_feat" => ",样本1,样本2\n特征1,10,30\n特征2,20,40"
  | "row_feat" => "特征1,特征2\n10,20\n30,40"
  | "row_sample" => "样本1,样本2\n10,30\n20,40"
  | "col_feat" => "特征1,10,20\n特征2,30,40"
  | "col_sample" => "样本1,10,20\n样本2,30,40"
  | "no_name_row_sample" => "10,20\n30,40"
  | "no_name_row_feat" => "10,30\n20,40"
  | _ => ""

/-- The eight `dataFormatOptions` as `(value, label)` pairs, in catalog
order. -/
def dataFormatOptions : List (String × String) :=
  [("row_feat_col_sample", "第一行为特征名称，第一列为样本名称"),
   ("row_sample_col_feat", "第一行为样本名称，第一列为特征名称"),
   ("row_feat", "第一行为特征名称"),
   ("row_sample", "第一行为样本名称"),
   ("col_feat", "第一列为特征名称"),
   ("col_sample", "第一列为样本名称"),
   ("no_name_row_sample", "纯数据：每一行是样本"),
   ("no_name_row_feat", "纯数据：每一行是特征")]

/-- The algorithm catalog. -/
def algorithms : List String :=
  ["K-means", "PIntMF", "Subtype-GAN", "NEMO", "SNF"]

/-- Clustering metrics echoed verbatim from the collaborator
(`res.data.data.metrics`); the client performs no arithmetic on them, so the
opaque float payloads are modelled as integers. -/
structure Metrics where
  silhouette : Int
  calinski : Int
  davies : Int
deriving DecidableEq, Repr

/-- The `data` member of a run response: both sections are optional and
their absence is not an error. -/
structure RunRespData where
  metrics : Option Metrics
  plot_data : Option (List ClusterPoint)
deriving DecidableEq, Repr

/-- The body of a successful run response (`res.data`), stored whole into
`backendResponse`. -/
structure RunResponse where
  status : String
  message : String
  data : RunRespData
deriving DecidableEq, Repr

/-- The JSON body `runAnalysis` posts to the run endpoint. -/
structure RunRequest where
  algorithm : String
  timestamp : String
  filename : String
  n_clusters : Int
  random_state : Int
  max_iter : Int
deriving DecidableEq, Repr

/-- The reactive refs of the component.  The held file object is modelled by
an opaque name; `none` is a null/absent file reference. -/
structure AppState where
  backendResponse : Option RunResponse
  isLoading : Bool
  errorMessage : String
  selectedAlgorithm : String
  selectedFile : Option String
  uploadStatus : String
  uploadedFilename : String
  dataFormat : String
  kValue : Int
  maxIter : Int
  randomSeed : Int
deriving DecidableEq, Repr

/-- The initial values of the refs as declared in the component. -/
def initState : AppState :=
  { backendResponse := none
    isLoading := false
    errorMessage := ""
    selectedAlgorithm := ""
    selectedFile := none
    uploadStatus := ""
    uploadedFilename := ""
    dataFormat := "row_feat_col_sample"
    kValue := 3
    maxIter := 300
    randomSeed := 42 }

/-- Observable actions of a handler: a browser `alert`, a POST to the upload
endpoint (file and `data_format` fields), a POST to the run endpoint, or an
invocation of `renderChart` with the received `plot_data`. -/
inductive Effect where
  | alertE (msg : String)
  | postUpload (file : String) (data_format : String)
  | postRun (req : RunRequest)
  | renderCall (plot_data : List ClusterPoint)
deriving DecidableEq, Repr

/-- Synchronous prefix of `uploadFile` (up to the `await`): guard on a held
file, set the progress status, and issue the multipart POST. -/
def uploadFile (s : AppState) : AppState × List Effect :=
  match s.selectedFile with
  | none => (s, [Effect.alertE "请先选择一个文件！"])
  | some f =>
      ({ s with uploadStatus := "正在上传..." }, [Effect.postUpload f s.dataFormat])

/-- Resolution of the upload request.  On failure, the source tests
`error.response && error.response.data && error.response.data.detail`:
`detail = none` models a missing response/body/`detail` field (connectivity
failure or unstructured error), and a present `detail` string is truthy only
when non-empty. -/
inductive UploadResult where
  | success (filename : String) (original_filename : String)
      (original_shape : Option (Int × Int))
  | failure (detail : Option String)
deriving DecidableEq, Repr

/-- Continuation of `uploadFile` after the response arrives: the `try`
branch records the success status and the canonical server filename; the
`catch` branch records the rejection reason (structured `detail` when
present and truthy, the fixed generic message otherwise) and clears
`uploadedFilename`. -/
def uploadResolve (s : AppState) (r : UploadResult) : AppState :=
  match r with
  | UploadResult.success fn ofn shape =>
      { s with
        uploadStatus := "✅ 上传成功: " ++ ofn ++ " \n📊 文件原始形状: " ++
          (match shape with
           | some rc => "(行=" ++ toString rc.1 ++ ", 列=" ++ toString rc.2 ++ ")"
           | none => "")
        uploadedFilename := fn }
  | UploadResult.failure detail =>
      { s with
        uploadStatus :=
          match detail with
          | some d =>
              if d = "" then "❌ 上传失败，请检查后端服务是否启动"
              else "❌ 数据不合规: " ++ d
          | none => "❌ 上传失败，请检查后端服务是否启动"
        uploadedFilename := "" }

/-- `handleFileChange`: `file` is the first entry of the input element's
file list (`none` when the selection dialog was cancelled).  With a file,
the held reference is replaced, the status cleared, and `uploadFile` runs;
without one, only the status text is cleared. -/
def handleFileChange (s : AppState) (file : Option String) :
    AppState × List Effect :=
  match file with
  | some f => uploadFile { s with selectedFile := some f, uploadStatus := "" }
  | none => ({ s with uploadStatus := "" }, [])

/-- `handleFormatChange`: the `v-model` binding has already written the new
format token into `dataFormat` when the change handler runs; the handler
re-uploads when a file is held and otherwise does nothing. -/
def handleFormatChange (s : AppState) (fmt : String) : AppState × List Effect :=
  let s1 := { s with dataFormat := fmt }
  match s1.selectedFile with
  | some _ => uploadFile s1
  | none => (s1, [])

/-- Synchronous prefix of `runAnalysis` (up to the `await`): the two local
precondition guards (`alert` and return, no request), then the loading flag,
the cleared error and result, and the POST to the run endpoint.  `now` is
the value of `new Date().toISOString()` at the call. -/
def runAnalysis (s : AppState) (now : String) : AppState × List Effect :=
  if s.uploadedFilename = "" then (s, [Effect.alertE "请先上传数据文件！"])
  else if s.selectedAlgorithm = "" then (s, [Effect.alertE "请先选择一种算法！"])
  else
    ({ s with isLoading := true, errorMessage := "", backendResponse := none },
     [Effect.postRun
        { algorithm := s.selectedAlgorithm
          timestamp := now
          filename := s.uploadedFilename
          n_clusters := s.kValue
          random_state := s.randomSeed
          max_iter := s.maxIter }])

/-- Resolution of the run request: `failure` is any rejected promise (the
collaborator returns no structured reason for run failures). -/
inductive RunResult where
  | success (resp : RunResponse)
  | failure
deriving DecidableEq, Repr

/-- Continuation of `runAnalysis` after the response: the `try` branch
stores the whole body and, when `plot_data` is truthy (present — an empty
array included), invokes `renderChart` with it after `nextTick`; the `catch`
branch records the fixed connectivity message; the `finally` branch clears
the loading flag in both cases. -/
def runResolve (s : AppState) (r : RunResult) : AppState × List Effect :=
  match r with
  | RunResult.success resp =>
      ({ s with backendResponse := some resp, isLoading := false },
       match resp.data.plot_data with
       | some pd => [Effect.renderCall pd]
       | none => [])
  | RunResult.failure =>
      ({ s with
          errorMessage := "连接后端失败，请检查 FastAPI 是否启动并配置了 CORS。"
          isLoading := false }, [])

/-- C1: the claim asserts the series are ordered by ascending *numeric*
cluster id for arbitrary integer ids, including ids of two or more digits.
The code sorts with the JavaScript default comparator, which compares the
decimal string representations: with cluster ids 2 and 10 present, the
produced series are ordered `Cluster 10` before `Cluster 2` (because the
string `"10"` precedes `"2"`), contradicting numeric ascending order. -/
theorem renderChart_series_order_is_string_sort_not_numeric :
    (seriesData [⟨0, 0, "a", 2⟩, ⟨1, 1, "b", 10⟩]).map (fun s => s.name)
      = ["Cluster 10", "Cluster 2"]
    ∧ clustersOf [⟨0, 0, "a", 2⟩, ⟨1, 1, "b", 10⟩] = [10, 2]
    ∧ (10 : Int) > 2 := by
  refine ⟨by decide, by decide, by decide⟩

/-- C2: resolving any upload failure (structured rejection or connectivity
failure) clears `uploadedFilename`, and a `runAnalysis` call on the
resulting state — whatever filename was cached before the rejection — fails
the first local guard: the state is returned unchanged and the only effect
is the alert prompt; in particular no network request is issued. -/
theorem rejected_upload_discards_filename_and_blocks_run
    (s : AppState) (d : Option String) (now : String) :
    (uploadResolve s (UploadResult.failure d)).uploadedFilename = ""
    ∧ runAnalysis (uploadResolve s (UploadResult.failure d)) now
        = (uploadResolve s (UploadResult.failure d),
           [Effect.alertE "请先上传数据文件！"]) := by
  have h1 : (uploadResolve s (UploadResult.failure d)).uploadedFilename = "" := rfl
  exact ⟨h1, by simp [runAnalysis, h1]⟩

/-- C3 as stated is false on the code: with a chart surface present and an
**empty** `plot_data` array, the guard `!chartRef.value || !plot_data` does
not fire (an empty array is truthy in JavaScript), so the chart is
initialized and `setOption` is called — `renderChart` does not return the
no-op `none`. -/
theorem renderChart_empty_array_still_renders :
    (renderChart true (some [])).isSome = true := by decide

/-- C3 amended: a null/absent chart surface or a null/absent `plot_data`
value is a silent no-op (no `echarts.init`, no `setOption`, no error), but
an empty `plot_data` array with a surface present still initializes the
chart and sets an option object carrying an empty series list (also without
error — the function is total). -/
theorem renderChart_noop_only_on_null_surface_or_null_points
    (pd : Option (List ClusterPoint)) (b : Bool) :
    renderChart false pd = none
    ∧ renderChart b none = none
    ∧ renderChart true (some []) =
        some
          { series := []
            legendBottom := "5%"
            legendData := []
            xAxisName := "PC 1"
            xSplitLine := false
            yAxisName := "PC 2"
            ySplitLine := false } := by
  refine ⟨rfl, ?_, by decide⟩
  cases b <;> rfl

/-- C4: a `runAnalysis` call with no accepted upload (empty
`uploadedFilename`) or an empty algorithm string returns the state
completely unchanged (so the analysis outcome — `isLoading`,
`backendResponse`, `errorMessage` — remains whatever it was) and its only
effect is one alert prompt: no network request is issued. -/
theorem runAnalysis_precondition_failure_is_local_noop
    (s : AppState) (now : String)
    (h : s.uploadedFilename = "" ∨ s.selectedAlgorithm = "") :
    (runAnalysis s now).1 = s
    ∧ ∃ m, (runAnalysis s now).2 = [Effect.alertE m] := by
  by_cases hf : s.uploadedFilename = ""
  · exact ⟨by simp [runAnalysis, hf], "请先上传数据文件！", by simp [runAnalysis, hf]⟩
  · have ha : s.selectedAlgorithm = "" := h.resolve_left hf
    exact ⟨by simp [runAnalysis, hf, ha], "请先选择一种算法！",
      by simp [runAnalysis, hf, ha]⟩

/-- Witness for C4 at the initial state, whose `uploadedFilename` is empty. -/
theorem runAnalysis_precondition_failure_is_local_noop_witness :
    (initState.uploadedFilename = "" ∨ initState.selectedAlgorithm = "")
    ∧ ((runAnalysis initState "2024-01-01T00:00:00.000Z").1 = initState
       ∧ ∃ m, (runAnalysis initState "2024-01-01T00:00:00.000Z").2
           = [Effect.alertE m]) :=
  ⟨Or.inl rfl,
   runAnalysis_precondition_failure_is_local_noop initState
     "2024-01-01T00:00:00.000Z" (Or.inl rfl)⟩

/-- C5 as stated is false on the code: for the feature-major-named
orientation (`row_feat_col_sample`) the example text is not the spec's
literal `,F1,F2` / `S1,10,20` / `S2,30,40` — the code's fixed literal labels
the columns 特征1/特征2 and the rows 样本1/样本2. -/
theorem exampleText_literal_differs_from_spec :
    exampleText "row_feat_col_sample" ≠ ",F1,F2\nS1,10,20\nS2,30,40" := by
  decide

/-- C5 amended: `exampleText` is a pure total function on the eight
orientation tokens, returning for each the one fixed literal of the code
(feature-major-named yields header row `,特征1,特征2` then `样本1,10,20`
then `样本2,30,40`), and the empty string on any unknown token; referential
stability across repeated calls is immediate since it is a function of its
argument alone. -/
theorem exampleText_fixed_literals :
    exampleText "row_feat_col_sample" = ",特征1,特征2\n样本1,10,20\n样本2,30,40"
    ∧ exampleText "row_sample_col_feat" = ",样本1,样本2\n特征1,10,30\n特征2,20,40"
    ∧ exampleText "row_feat" = "特征1,特征2\n10,20\n30,40"
    ∧ exampleText "row_sample" = "样本1,样本2\n10,30\n20,40"
    ∧ exampleText "col_feat" = "特征1,10,20\n特征2,30,40"
    ∧ exampleText "col_sample" = "样本1,10,20\n样本2,30,40"
    ∧ exampleText "no_name_row_sample" = "10,20\n30,40"
    ∧ exampleText "no_name_row_feat" = "10,30\n20,40" :=
  ⟨rfl, rfl, rfl, rfl, rfl, rfl, rfl, rfl⟩

/-- The example input of C6: five points with cluster ids `[2, 0, 1, 0, 2]`. -/
def c6Points : List ClusterPoint :=
  [⟨0, 0, "p0", 2⟩, ⟨1, 1, "p1", 0⟩, ⟨2, 2, "p2", 1⟩, ⟨3, 3, "p3", 0⟩,
   ⟨4, 4, "p4", 2⟩]

/-- C6: every series produced by the renderer is named `Cluster {id}` for
some cluster id present in the input and its data is exactly the filter of
the input to that id, mapped to `[x, y, name]` triples in the original
relative order; on the example with cluster ids `[2, 0, 1, 0, 2]`, exactly
3 series result, ordered `[0, 1, 2]`, each containing only its matching
points in input order. -/
theorem seriesData_filters_points_preserving_order :
    (∀ (pd : List ClusterPoint) (s : Series), s ∈ seriesData pd →
       ∃ cid, cid ∈ clustersOf pd
         ∧ s.name = "Cluster " ++ toString cid
         ∧ s.data = (pd.filter (fun item => item.cluster == cid)).map
             (fun p => (p.x, p.y, p.name)))
    ∧ (seriesData c6Points).map (fun s => s.name)
        = ["Cluster 0", "Cluster 1", "Cluster 2"]
    ∧ (seriesData c6Points).map (fun s => s.data)
        = [[(1, 1, "p1"), (3, 3, "p3")], [(2, 2, "p2")],
           [(0, 0, "p0"), (4, 4, "p4")]] := by
  refine ⟨?_, by decide, by decide⟩
  intro pd s hs
  simp only [seriesData, List.mem_map] at hs
  rcases hs with ⟨cid, hcid, rfl⟩
  exact ⟨cid, hcid, rfl, rfl⟩

/-- Witness for C6: the `Cluster 0` series of the example input is produced,
and the theorem yields its id, name and filtered data. -/
theorem seriesData_filters_points_preserving_order_witness :
    mkSeries c6Points 0 ∈ seriesData c6Points
    ∧ ∃ cid, cid ∈ clustersOf c6Points
        ∧ (mkSeries c6Points 0).name = "Cluster " ++ toString cid
        ∧ (mkSeries c6Points 0).data
            = (c6Points.filter (fun item => item.cluster == cid)).map
                (fun p => (p.x, p.y, p.name)) :=
  ⟨List.mem_map_of_mem (mkSeries c6Points) (by decide),
   seriesData_filters_points_preserving_order.1 c6Points (mkSeries c6Points 0)
     (List.mem_map_of_mem (mkSeries c6Points) (by decide))⟩

/-- C7 as stated is false on the code: when the error response carries a
`detail` field that is present but empty, the truthiness test
`error.response.data.detail` fails and the generic unreachable-service
message is recorded instead of the verbatim (prefixed) detail string. -/
theorem uploadResolve_present_empty_detail_gets_generic_message :
    (uploadResolve initState (UploadResult.failure (some ""))).uploadStatus
      = "❌ 上传失败，请检查后端服务是否启动"
    ∧ (uploadResolve initState (UploadResult.failure (some ""))).uploadStatus
        ≠ "❌ 数据不合规: " ++ "" := by
  refine ⟨rfl, by decide⟩

/-- C7 amended: when the failure response carries a present **non-empty**
`detail` string, the recorded reason is that string verbatim behind the
fixed failure prefix; when `detail` is absent (or present but empty) the
reason is the single fixed generic message; in every failure case the
accepted filename is cleared (the outcome is Rejected). -/
theorem uploadResolve_failure_reason_taxonomy
    (s : AppState) (d : String) (h : d ≠ "") :
    (uploadResolve s (UploadResult.failure (some d))).uploadStatus
      = "❌ 数据不合规: " ++ d
    ∧ (uploadResolve s (UploadResult.failure (some d))).uploadedFilename = ""
    ∧ (uploadResolve s (UploadResult.failure none)).uploadStatus
        = "❌ 上传失败，请检查后端服务是否启动"
    ∧ (uploadResolve s (UploadResult.failure none)).uploadedFilename = "" := by
  refine ⟨?_, rfl, rfl, rfl⟩
  simp [uploadResolve, h]

/-- Witness for C7 with the concrete detail string 格式错误. -/
theorem uploadResolve_failure_reason_taxonomy_witness :
    ("格式错误" : String) ≠ ""
    ∧ ((uploadResolve initState (UploadResult.failure (some "格式错误"))).uploadStatus
          = "❌ 数据不合规: " ++ "格式错误"
       ∧ (uploadResolve initState
            (UploadResult.failure (some "格式错误"))).uploadedFilename = ""
       ∧ (uploadResolve initState (UploadResult.failure none)).uploadStatus
           = "❌ 上传失败，请检查后端服务是否启动"
       ∧ (uploadResolve initState (UploadResult.failure none)).uploadedFilename
           = "") :=
  ⟨by decide, uploadResolve_failure_reason_taxonomy initState "格式错误" (by decide)⟩

/-- A state in which an upload has been accepted and an algorithm chosen,
used to instantiate the run-lifecycle theorems. -/
def acceptedState : AppState :=
  { initState with
    selectedFile := some "data.csv"
    uploadStatus := "✅ 上传成功: data.csv \n📊 文件原始形状: (行=50, 列=20000)"
    uploadedFilename := "1700000000_data.csv"
    selectedAlgorithm := "K-means" }

/-- C8: a run that passes both guards and then resolves as failed leaves the
upload controller state (`uploadedFilename`, `uploadStatus`, `selectedFile`)
exactly as it was, and a retry of `runAnalysis` afterwards passes the guards
again and posts a request carrying the same accepted filename — no
re-upload needed. -/
theorem failed_run_preserves_upload_state
    (s : AppState) (now now2 : String)
    (hf : s.uploadedFilename ≠ "") (ha : s.selectedAlgorithm ≠ "") :
    (runResolve (runAnalysis s now).1 RunResult.failure).1.uploadedFilename
      = s.uploadedFilename
    ∧ (runResolve (runAnalysis s now).1 RunResult.failure).1.uploadStatus
        = s.uploadStatus
    ∧ (runResolve (runAnalysis s now).1 RunResult.failure).1.selectedFile
        = s.selectedFile
    ∧ (runAnalysis (runResolve (runAnalysis s now).1 RunResult.failure).1 now2).2
        = [Effect.postRun
            { algorithm := s.selectedAlgorithm
              timestamp := now2
              filename := s.uploadedFilename
              n_clusters := s.kValue
              random_state := s.randomSeed
              max_iter := s.maxIter }] := by
  refine ⟨?_, ?_, ?_, ?_⟩ <;> simp [runAnalysis, runResolve, hf, ha]

/-- Witness for C8 at a concrete accepted state. -/
theorem failed_run_preserves_upload_state_witness :
    (acceptedState.uploadedFilename ≠ "" ∧ acceptedState.selectedAlgorithm ≠ "")
    ∧ ((runResolve (runAnalysis acceptedState "t1").1
          RunResult.failure).1.uploadedFilename = acceptedState.uploadedFilename
       ∧ (runResolve (runAnalysis acceptedState "t1").1
            RunResult.failure).1.uploadStatus = acceptedState.uploadStatus
       ∧ (runResolve (runAnalysis acceptedState "t1").1
            RunResult.failure).1.selectedFile = acceptedState.selectedFile
       ∧ (runAnalysis (runResolve (runAnalysis acceptedState "t1").1
            RunResult.failure).1 "t2").2
           = [Effect.postRun
               { algorithm := acceptedState.selectedAlgorithm
                 timestamp := "t2"
                 filename := acceptedState.uploadedFilename
                 n_clusters := acceptedState.kValue
                 random_state := acceptedState.randomSeed
                 max_iter := acceptedState.maxIter }]) :=
  ⟨⟨by decide, by decide⟩,
   failed_run_preserves_upload_state acceptedState "t1" "t2"
     (by decide) (by decide)⟩

/-- C9: cancelling the file dialog (no file in the change event) only clears
the displayed upload status text — the held file reference and the accepted
server filename survive — and a subsequent `runAnalysis` on that state does
not fail the upload guard (its effect list is never the upload prompt). -/
theorem cancelled_selection_only_clears_status
    (s : AppState) (now : String) (hf : s.uploadedFilename ≠ "") :
    handleFileChange s none = ({ s with uploadStatus := "" }, [])
    ∧ (handleFileChange s none).1.selectedFile = s.selectedFile
    ∧ (handleFileChange s none).1.uploadedFilename = s.uploadedFilename
    ∧ (runAnalysis (handleFileChange s none).1 now).2
        ≠ [Effect.alertE "请先上传数据文件！"] := by
  refine ⟨rfl, rfl, rfl, ?_⟩
  by_cases ha : s.selectedAlgorithm = ""
  · simp [handleFileChange, runAnalysis, hf, ha]
  · simp [handleFileChange, runAnalysis, hf, ha]

/-- Witness for C9 at a concrete accepted state. -/
theorem cancelled_selection_only_clears_status_witness :
    acceptedState.uploadedFilename ≠ ""
    ∧ (handleFileChange acceptedState none
          = ({ acceptedState with uploadStatus := "" }, [])
       ∧ (handleFileChange acceptedState none).1.selectedFile
           = acceptedState.selectedFile
       ∧ (handleFileChange acceptedState none).1.uploadedFilename
           = acceptedState.uploadedFilename
       ∧ (runAnalysis (handleFileChange acceptedState none).1 "t1").2
           ≠ [Effect.alertE "请先上传数据文件！"]) :=
  ⟨by decide, cancelled_selection_only_clears_status acceptedState "t1" (by decide)⟩

/-- C10: a run that passes both guards enters the network call with
`backendResponse` cleared to null, `errorMessage` cleared to empty and the
loading flag set, issues exactly one run request, and after a failed
resolution the stored response is still null while the generic connectivity
message is displayed — no stale success result remains beside the error. -/
theorem run_clears_prior_result_before_request
    (s : AppState) (now : String)
    (hf : s.uploadedFilename ≠ "") (ha : s.selectedAlgorithm ≠ "") :
    (runAnalysis s now).1.backendResponse = none
    ∧ (runAnalysis s now).1.errorMessage = ""
    ∧ (runAnalysis s now).1.isLoading = true
    ∧ (∃ req, (runAnalysis s now).2 = [Effect.postRun req])
    ∧ (runResolve (runAnalysis s now).1 RunResult.failure).1.backendResponse
        = none
    ∧ (runResolve (runAnalysis s now).1 RunResult.failure).1.errorMessage
        = "连接后端失败，请检查 FastAPI 是否启动并配置了 CORS。" := by
  refine ⟨?_, ?_, ?_,
    ⟨{ algorithm := s.selectedAlgorithm
       timestamp := now
       filename := s.uploadedFilename
       n_clusters := s.kValue
       random_state := s.randomSeed
       max_iter := s.maxIter }, ?_⟩, ?_, ?_⟩ <;>
    simp [runAnalysis, runResolve, hf, ha]

/-- Witness for C10 at a concrete accepted state. -/
theorem run_clears_prior_result_before_request_witness :
    (acceptedState.uploadedFilename ≠ "" ∧ acceptedState.selectedAlgorithm ≠ "")
    ∧ ((runAnalysis acceptedState "t1").1.backendResponse = none
       ∧ (runAnalysis acceptedState "t1").1.errorMessage = ""
       ∧ (runAnalysis acceptedState "t1").1.isLoading = true
       ∧ (∃ req, (runAnalysis acceptedState "t1").2 = [Effect.postRun req])
       ∧ (runResolve (runAnalysis acceptedState "t1").1
            RunResult.failure).1.backendResponse = none
       ∧ (runResolve (runAnalysis acceptedState "t1").1
            RunResult.failure).1.errorMessage
           = "连接后端失败，请检查 FastAPI 是否启动并配置了 CORS。") :=
  ⟨⟨by decide, by decide⟩,
   run_clears_prior_result_before_request acceptedState "t1"
     (by decide) (by decide)⟩

